import Mathlib

/-!
# Verification of the milk-production payment core

Shallow embedding of the payment price-calculation and aggregation pipeline
of the milk-production API: the price calculator
(`PaymentService._calculatePricePerLiter`, `src/services/payment.js`),
the production aggregator
(`MilkProductionService.getMilkProductionByYearAndMonth`,
`src/services/milkProduction.js`), and the payment orchestrator operations
(`createPayment`, `getPricePerLiterByFarmAndMonth`,
`getPricePerLiterByFarmAndYear`, `src/services/payment.js`), over explicit
list-based stores standing for the MongoDB collections.

Numbers: JavaScript numbers are modelled as exact values — either NaN, a
signed infinity, or a finite rational (`JSNum`).  Decimal literals of the
source (`1.8`, `0.06`, ...) are taken as the exact decimals they denote;
IEEE-754 rounding error is not modelled.  The only special-value producer in
this code is the division `(bonus * volume) / volume`, embedded by `jsDiv`
with the ECMAScript rules for division by zero.

Dates: `Date.UTC(year, monthIndex, day, h, m, s)` is embedded as a whole
count of seconds from a fixed origin, computed by proleptic-Gregorian
calendar arithmetic with the ECMAScript normalization of out-of-range month
indices and day numbers (day `0` is the last day of the previous month).
-/

/-- A JavaScript number: NaN, a signed infinity, or a finite value modelled
as an exact rational. -/
inductive JSNum where
  | nan : JSNum
  | posInf : JSNum
  | negInf : JSNum
  | num : ℚ → JSNum
deriving DecidableEq

/-- ECMAScript division of two finite numbers: `0 / 0` is NaN, `x / 0` for
nonzero `x` is a signed infinity, otherwise the exact quotient.  (Signed
zero is not modelled; it plays no role in this code.) -/
def jsDiv (a b : ℚ) : JSNum :=
  if b = 0 then
    if a = 0 then .nan else if 0 < a then .posInf else .negInf
  else .num (a / b)

/-- ECMAScript addition of a finite number (left) and an arbitrary number
(right): NaN and infinities propagate. -/
def jsAddNum (a : ℚ) : JSNum → JSNum
  | .nan => .nan
  | .posInf => .posInf
  | .negInf => .negInf
  | .num b => .num (a + b)

/-- ECMAScript multiplication of an arbitrary number by a finite number:
NaN propagates; an infinity times zero is NaN, otherwise the sign rules
apply. -/
def jsMulNum : JSNum → ℚ → JSNum
  | .nan, _ => .nan
  | .posInf, b => if b = 0 then .nan else if 0 < b then .posInf else .negInf
  | .negInf, b => if b = 0 then .nan else if 0 < b then .negInf else .posInf
  | .num a, b => .num (a * b)

/-- Rounding to two decimal places; stands for the numeric content of
JavaScript `toFixed(2)` (the string formatting itself is presentation and is
abstracted to the rounded value). -/
def toFixed2 (q : ℚ) : ℚ := (round (q * 100) : ℤ) / 100

/-- `parseFloat(x).toFixed(2)` applied to a stored number: the identity on
NaN and infinities, two-decimal rounding on finite values. -/
def jsToFixed2 : JSNum → JSNum
  | .nan => .nan
  | .posInf => .posInf
  | .negInf => .negInf
  | .num q => .num (toFixed2 q)

/-! ## Calendar model of `Date.UTC` -/

/-- Gregorian leap-year rule. -/
def isLeapYear (y : ℤ) : Prop := (y % 4 = 0 ∧ y % 100 ≠ 0) ∨ y % 400 = 0

instance (y : ℤ) : Decidable (isLeapYear y) := by
  unfold isLeapYear
  infer_instance

/-- Length in days of month `m` (1-based) of year `y`. -/
def daysInMonth (y m : ℤ) : ℤ :=
  if m = 2 then (if isLeapYear y then 29 else 28)
  else if m = 4 ∨ m = 6 ∨ m = 9 ∨ m = 11 then 30
  else 31

/-- Days of year `y` elapsed before the first day of month `m` (1-based). -/
def daysBeforeMonth (y m : ℤ) : ℤ :=
  let l : ℤ := if isLeapYear y then 1 else 0
  if m ≤ 1 then 0
  else if m = 2 then 31
  else if m = 3 then 59 + l
  else if m = 4 then 90 + l
  else if m = 5 then 120 + l
  else if m = 6 then 151 + l
  else if m = 7 then 181 + l
  else if m = 8 then 212 + l
  else if m = 9 then 243 + l
  else if m = 10 then 273 + l
  else if m = 11 then 304 + l
  else 334 + l

/-- Leap days among the years strictly before year `y` (relative to a fixed
origin; only differences of this function matter to the embedding). -/
def leapYearsBefore (y : ℤ) : ℤ := (y - 1) / 4 - (y - 1) / 100 + (y - 1) / 400

/-- Days elapsed before the first day of year `y`, from the fixed origin. -/
def daysBeforeYear (y : ℤ) : ℤ := 365 * y + leapYearsBefore y

/-- Day number of the civil date `y-m-d` (month 1-based; `d` may lie outside
`1 .. daysInMonth`, in which case it offsets linearly, exactly as in
ECMAScript `MakeDay`). -/
def daysFromCivil (y m d : ℤ) : ℤ := daysBeforeYear y + daysBeforeMonth y m + (d - 1)

/-- Timestamp (in seconds from the origin) of the civil instant
`y-m-d h:mi:s` UTC, month 1-based. -/
def civilTimestamp (y m d h mi s : ℤ) : ℤ :=
  daysFromCivil y m d * 86400 + h * 3600 + mi * 60 + s

/-- Embedding of `Date.UTC(y, mIdx, d, h, mi, s)` (month index 0-based):
the month index is normalized into the year by floor division, and the day
offsets linearly, so day `0` denotes the last day of the previous month. -/
def dateUTC (y mIdx d h mi s : ℤ) : ℤ :=
  civilTimestamp (y + mIdx / 12) (mIdx % 12 + 1) d h mi s

/-- `new Date(Date.UTC(year, month - 1, 1, 0, 0, 0))` — lower bound of the
aggregation window (`src/services/milkProduction.js:18`,
`src/services/payment.js:197`). -/
def startOfMonth (year month : ℤ) : ℤ := dateUTC year (month - 1) 1 0 0 0

/-- `new Date(Date.UTC(year, month, 0, 23, 59, 59))` — upper bound of the
aggregation window (`src/services/milkProduction.js:19`,
`src/services/payment.js:198`). -/
def endOfMonth (year month : ℤ) : ℤ := dateUTC year month 0 23 59 59

/-! ## Price calculator (`PaymentService._calculatePricePerLiter`) -/

/-- `month >= 1 && month <= 6` (`src/services/payment.js:33`). -/
def isFirstSemester (month : ℤ) : Prop := 1 ≤ month ∧ month ≤ 6

instance (month : ℤ) : Decidable (isFirstSemester month) := by
  unfold isFirstSemester
  infer_instance

/-- `basePrice = isFirstSemester ? 1.8 : 1.95` (`src/services/payment.js:34`). -/
def basePriceOf (month : ℤ) : ℚ := if isFirstSemester month then 1.8 else 1.95

/-- `bonus = !isFirstSemester && volume > 10000 ? 0.01 : 0`
(`src/services/payment.js:35`). -/
def bonusOf (month : ℤ) (volume : ℚ) : ℚ :=
  if ¬ isFirstSemester month ∧ volume > 10000 then 0.01 else 0

/-- `costPerKm = distance <= 50 ? 0.05 : 0.06` (`src/services/payment.js:38`). -/
def costPerKmOf (distance : ℚ) : ℚ := if distance ≤ 50 then 0.05 else 0.06

/-- The subterm `(bonus * volume) / volume` of `src/services/payment.js:41`. -/
def bonusTerm (month : ℤ) (volume : ℚ) : JSNum :=
  jsDiv (bonusOf month volume * volume) volume

/-- `PaymentService._calculatePricePerLiter(farm, volume, month)`
(`src/services/payment.js:32-43`), with the farm represented by its
`distance_to_factory_km`:
`pricePerLiter = basePrice - transportCost + (bonus * volume) / volume`. -/
def calculatePricePerLiter (distance volume : ℚ) (month : ℤ) : JSNum :=
  jsAddNum (basePriceOf month - costPerKmOf distance * distance) (bonusTerm month volume)

/-! ## Data model and stores (the MongoDB collections as explicit lists) -/

/-- A raw identifier string as received by the services: `hexOk` records
whether `ObjectId.createFromHexString` accepts it, `oid` the ObjectId it
denotes when it does. -/
structure RawId where
  hexOk : Bool
  oid : ℕ
deriving DecidableEq

/-- `_formatObjectId(id)`: throws `Invalid ID format` on a malformed
identifier (`src/services/payment.js:15-22`,
`src/services/milkProduction.js:6-13`). -/
def formatObjectId (id : RawId) : Except String ℕ :=
  if id.hexOk then .ok id.oid else .error "Invalid ID format"

/-- A Farm document, reduced to the fields this core reads. -/
structure Farm where
  oid : ℕ
  distance_to_factory_km : ℚ
deriving DecidableEq

/-- A daily milk-production document: owning farm, UTC date (seconds
timestamp), volume in liters. -/
structure MilkProduction where
  farm_id : ℕ
  date : ℤ
  volume_liters : ℚ
deriving DecidableEq

/-- A production document after the `$project` stage of the aggregation
pipeline: only `date` and `volume_liters` survive. -/
structure ProdView where
  date : ℤ
  volume_liters : ℚ
deriving DecidableEq

/-- A Monthly Payment snapshot document
(`{farm_id, year, month, price_per_liter, total_volume_liters,
total_payment, createdAt, updatedAt}`). -/
structure Payment where
  farm_id : ℕ
  year : ℤ
  month : ℤ
  price_per_liter : JSNum
  total_volume_liters : ℚ
  total_payment : JSNum
  createdAt : ℤ
  updatedAt : ℤ
deriving DecidableEq

/-- The database: one list per collection this core touches. -/
structure Store where
  farms : List Farm
  milkProductions : List MilkProduction
  payments : List Payment
deriving DecidableEq

/-! ## Repository queries -/

/-- `farmRepository.getFarmById`: `findOne` on the farms collection. -/
def getFarmById : List Farm → ℕ → Option Farm
  | [], _ => none
  | f :: rest, oid => if f.oid = oid then some f else getFarmById rest oid

/-- The `$match` stage of
`milkProductionRepository.getMilkProductionsByYearAndMonth`:
`farm_id` equal and `date` in the inclusive range `[s, e]`. -/
def matchProductions (fid : ℕ) (s e : ℤ) : List MilkProduction → List MilkProduction
  | [] => []
  | p :: rest =>
    if p.farm_id = fid ∧ s ≤ p.date ∧ p.date ≤ e then
      p :: matchProductions fid s e rest
    else matchProductions fid s e rest

/-- Insertion step of the `$sort: {date: 1}` stage. -/
def insertByDate (p : MilkProduction) : List MilkProduction → List MilkProduction
  | [] => [p]
  | q :: rest => if p.date ≤ q.date then p :: q :: rest else q :: insertByDate p rest

/-- The `$sort: {date: 1}` stage: records ordered by date ascending. -/
def sortByDate : List MilkProduction → List MilkProduction
  | [] => []
  | p :: rest => insertByDate p (sortByDate rest)

/-- The `$project: {date: 1, volume_liters: 1}` stage. -/
def projectProduction (p : MilkProduction) : ProdView :=
  { date := p.date, volume_liters := p.volume_liters }

/-- `milkProductionRepository.getMilkProductionsByYearAndMonth(farmId,
startOfMonth, endOfMonth)`: match, sort by date ascending, project. -/
def getMilkProductionsByYearAndMonth (l : List MilkProduction) (fid : ℕ) (s e : ℤ) :
    List ProdView :=
  (sortByDate (matchProductions fid s e l)).map projectProduction

/-- `paymentRepository.getPricePerLiterByFarmAndMonth`: `findOne` on
`{farm_id, year, month}`. -/
def findPaymentByFarmAndMonth : List Payment → ℕ → ℤ → ℤ → Option Payment
  | [], _, _, _ => none
  | p :: rest, fid, y, m =>
    if p.farm_id = fid ∧ p.year = y ∧ p.month = m then some p
    else findPaymentByFarmAndMonth rest fid y m

/-- The `find {farm_id, year}` filter of
`paymentRepository.getPricePerLiterByFarmAndYear`. -/
def matchPayments (fid : ℕ) (y : ℤ) : List Payment → List Payment
  | [] => []
  | p :: rest =>
    if p.farm_id = fid ∧ p.year = y then p :: matchPayments fid y rest
    else matchPayments fid y rest

/-- Insertion step of the `sort {month: 1}` on payments. -/
def insertByMonth (p : Payment) : List Payment → List Payment
  | [] => [p]
  | q :: rest => if p.month ≤ q.month then p :: q :: rest else q :: insertByMonth p rest

/-- The `sort {month: 1}` on payments: snapshots ordered by month ascending. -/
def sortByMonth : List Payment → List Payment
  | [] => []
  | p :: rest => insertByMonth p (sortByMonth rest)

/-- `paymentRepository.getPricePerLiterByFarmAndYear(farmId, year)`. -/
def getPaymentsByFarmAndYear (l : List Payment) (fid : ℕ) (y : ℤ) : List Payment :=
  sortByMonth (matchPayments fid y l)

/-! ## Production aggregator service
(`MilkProductionService.getMilkProductionByYearAndMonth`) -/

/-- A value of the JSON object returned by the aggregator: a string, a
number, or the array of daily records. -/
inductive AggVal where
  | str : String → AggVal
  | num : ℚ → AggVal
  | records : List ProdView → AggVal
deriving DecidableEq

/-- The `"no data for period"` sentinel object
`{message: "No milk production data found for this period"}`
(`src/services/milkProduction.js:29`). -/
def noDataSentinel : List (String × AggVal) :=
  [("message", .str "No milk production data found for this period")]

/-- `milkProductions.reduce((total, production) =>
total + production.volume_liters, 0)` (`src/services/milkProduction.js:32-35`;
the identical `reduce` of `src/services/payment.js:211-214` is embedded by
the same function). -/
def totalLitersOf (l : List ProdView) : ℚ :=
  List.foldl (fun total production => total + production.volume_liters) 0 l

/-- The success object of the aggregator:
`{dailyProductions, averageLiters: (totalLiters / count).toFixed(2)}`
(`src/services/milkProduction.js:38-41`), as an association list of its
fields in source order. -/
def aggResultObject (milkProductions : List ProdView) : List (String × AggVal) :=
  let totalLiters := totalLitersOf milkProductions
  let averageLiters := totalLiters / (milkProductions.length : ℚ)
  [("dailyProductions", .records milkProductions),
   ("averageLiters", .num (toFixed2 averageLiters))]

/-- The repository window query as issued by the services for `(year,
month)`: records of the farm dated within
`[startOfMonth year month, endOfMonth year month]`. -/
def aggWindow (st : Store) (fid : ℕ) (year month : ℤ) : List ProdView :=
  getMilkProductionsByYearAndMonth st.milkProductions fid
    (startOfMonth year month) (endOfMonth year month)

/-- `MilkProductionService.getMilkProductionByYearAndMonth(farmId, year,
month)` (`src/services/milkProduction.js:15-42`); the returned JSON object
is embedded as an association list of its fields, in source order. -/
def getMilkProductionByYearAndMonth (st : Store) (farmId : RawId) (year month : ℤ) :
    Except String (List (String × AggVal)) :=
  match formatObjectId farmId with
  | .error e => .error e
  | .ok fid =>
    let milkProductions :=
      getMilkProductionsByYearAndMonth st.milkProductions fid
        (startOfMonth year month) (endOfMonth year month)
    if milkProductions = [] then .ok noDataSentinel
    else .ok (aggResultObject milkProductions)

/-! ## Payment orchestrator (`PaymentService`) -/

/-- `PaymentService.createPayment(paymentData)`
(`src/services/payment.js:187-235`): returns the post-state of the store
together with the outcome (`.error` embeds a thrown error); `now` stands
for `new Date()` used for the timestamps. -/
def createPayment (st : Store) (farm_id : RawId) (year month now : ℤ) :
    Store × Except String Payment :=
  match formatObjectId farm_id with
  | .error e => (st, .error e)
  | .ok fid =>
    match getFarmById st.farms fid with
    | none => (st, .error "Farm not found")
    | some farm =>
      let milkProductions :=
        getMilkProductionsByYearAndMonth st.milkProductions fid
          (startOfMonth year month) (endOfMonth year month)
      if milkProductions = [] then
        (st, .error "No milk production data found for this period")
      else
        let totalVolumeLiters := totalLitersOf milkProductions
        let pricePerLiter :=
          calculatePricePerLiter farm.distance_to_factory_km totalVolumeLiters month
        let totalPayment := jsMulNum pricePerLiter totalVolumeLiters
        let payment : Payment :=
          { farm_id := fid, year := year, month := month,
            price_per_liter := pricePerLiter,
            total_volume_liters := totalVolumeLiters,
            total_payment := totalPayment,
            createdAt := now, updatedAt := now }
        ({ st with payments := st.payments ++ [payment] }, .ok payment)

/-- The oracle for the external currency converter
(`currency-converter-lt`): one independent call per month, keyed by the
month it serves; `none` models a failed conversion.  Locale formatting of
the two currencies is presentation and is abstracted to the numeric
amounts. -/
def Converter : Type := ℤ → JSNum → Option JSNum

/-- The month-level result object
`{price_per_liter: {BRL, USD}, total_payment, total_volume_liters}`. -/
structure MonthPrice where
  priceBRL : JSNum
  priceUSD : JSNum
  total_payment : JSNum
  total_volume_liters : ℚ
deriving DecidableEq

/-- Outcome of `getPricePerLiterByFarmAndMonth`: an informational message
object or a price object. -/
inductive MonthResult where
  | msg : String → MonthResult
  | price : MonthPrice → MonthResult
deriving DecidableEq

/-- `PaymentService.getPricePerLiterByFarmAndMonth(farmId, year, month)`
(`src/services/payment.js:53-107`). -/
def getPricePerLiterByFarmAndMonth (conv : Converter) (st : Store) (farmId : RawId)
    (year month : ℤ) : Except String MonthResult :=
  match formatObjectId farmId with
  | .error e => .error e
  | .ok fid =>
    match getFarmById st.farms fid with
    | none => .ok (.msg "Farm not found")
    | some farm =>
      match findPaymentByFarmAndMonth st.payments fid year month with
      | none => .ok (.msg "No payment data found for this period")
      | some payment =>
        let pricePerLiter :=
          calculatePricePerLiter farm.distance_to_factory_km
            payment.total_volume_liters month
        match conv month pricePerLiter with
        | none => .error "Currency conversion failed"
        | some usd =>
          .ok (.price { priceBRL := pricePerLiter, priceUSD := usd,
                        total_payment := jsToFixed2 payment.total_payment,
                        total_volume_liters := toFixed2 payment.total_volume_liters })

/-- One element of the year-level result:
`{month, price_per_liter: {BRL, USD}, total_payment, total_volume_liters}`. -/
structure YearEntry where
  month : ℤ
  priceBRL : JSNum
  priceUSD : JSNum
  total_payment : JSNum
  total_volume_liters : ℚ
deriving DecidableEq

/-- Outcome of `getPricePerLiterByFarmAndYear`: an informational message
object or the list of month entries. -/
inductive YearResult where
  | msg : String → YearResult
  | prices : List YearEntry → YearResult
deriving DecidableEq

/-- The body of the `payments.map` callback of
`src/services/payment.js:134-176`: recompute the price for the snapshot's
month, convert it, build the month entry; a failed conversion is the thrown
`Currency conversion failed`. -/
def convertPaymentEntry (conv : Converter) (farm : Farm) (payment : Payment) :
    Except String YearEntry :=
  let pricePerLiter :=
    calculatePricePerLiter farm.distance_to_factory_km
      payment.total_volume_liters payment.month
  match conv payment.month pricePerLiter with
  | none => .error "Currency conversion failed"
  | some usd =>
    .ok { month := payment.month, priceBRL := pricePerLiter, priceUSD := usd,
          total_payment := jsToFixed2 payment.total_payment,
          total_volume_liters := toFixed2 payment.total_volume_liters }

/-- `Promise.all` over independently launched fallible computations:
succeeds with all results when every computation succeeds, rejects when any
one rejects (all-or-nothing). -/
def promiseAll {α β : Type} (f : α → Except String β) : List α → Except String (List β)
  | [] => .ok []
  | a :: rest =>
    match f a, promiseAll f rest with
    | .error e, _ => .error e
    | .ok _, .error e => .error e
    | .ok b, .ok bs => .ok (b :: bs)

/-- `PaymentService.getPricePerLiterByFarmAndYear(farmId, year)`
(`src/services/payment.js:116-180`). -/
def getPricePerLiterByFarmAndYear (conv : Converter) (st : Store) (farmId : RawId)
    (year : ℤ) : Except String YearResult :=
  match formatObjectId farmId with
  | .error e => .error e
  | .ok fid =>
    match getFarmById st.farms fid with
    | none => .ok (.msg "Farm not found")
    | some farm =>
      let payments := getPaymentsByFarmAndYear st.payments fid year
      if payments = [] then .ok (.msg "No payment data found for this year")
      else (promiseAll (convertPaymentEntry conv farm) payments).map .prices

/-! ## Concrete fixtures used by the witnesses -/

/-- A well-formed identifier denoting ObjectId `1`. -/
def demoId : RawId := { hexOk := true, oid := 1 }

/-- A well-formed identifier denoting ObjectId `2`. -/
def demoId2 : RawId := { hexOk := true, oid := 2 }

/-- A well-formed identifier denoting an ObjectId absent from the stores. -/
def demoId99 : RawId := { hexOk := true, oid := 99 }

/-- A farm 80 km from the factory. -/
def demoFarm : Farm := { oid := 1, distance_to_factory_km := 80 }

/-- A farm 10 km from the factory. -/
def demoFarmNear : Farm := { oid := 2, distance_to_factory_km := 10 }

/-- A store with one farm and no production or payment documents. -/
def storeNoProd : Store := { farms := [demoFarm], milkProductions := [], payments := [] }

/-- 2024-03-10 00:00:00 UTC. -/
def marchDate : ℤ := civilTimestamp 2024 3 10 0 0 0

/-- One 100 L production record for farm `1` on `marchDate`. -/
def prodMarch : MilkProduction := { farm_id := 1, date := marchDate, volume_liters := 100 }

/-- A store with one farm and one March 2024 production record. -/
def storeMarch : Store := { farms := [demoFarm], milkProductions := [prodMarch], payments := [] }

/-- 2024-07-05 00:00:00 UTC. -/
def julyDate : ℤ := civilTimestamp 2024 7 5 0 0 0

/-- A zero-volume production record for farm `2` on `julyDate`. -/
def prodZero : MilkProduction := { farm_id := 2, date := julyDate, volume_liters := 0 }

/-- A store whose only production record for farm `2` has volume `0`. -/
def storeZero : Store := { farms := [demoFarmNear], milkProductions := [prodZero], payments := [] }

/-- A stored May 2024 payment snapshot for farm `1`. -/
def paymentMay : Payment :=
  { farm_id := 1, year := 2024, month := 5, price_per_liter := JSNum.num 1,
    total_volume_liters := 500, total_payment := JSNum.num 500,
    createdAt := 0, updatedAt := 0 }

/-- A store with one farm and the May 2024 payment snapshot. -/
def storeYear : Store := { farms := [demoFarm], milkProductions := [], payments := [paymentMay] }

/-- A converter whose month-5 call fails and whose other calls succeed. -/
def convFailMay : Converter := fun month _ => if month = 5 then none else some (JSNum.num 1)

/-- A converter that always succeeds, returning the amount unchanged. -/
def convOk : Converter := fun _ price => some price

/-! ## Helper lemmas -/

theorem bonusTerm_eq_of_ne_zero (month : ℤ) (volume : ℚ) (hv : volume ≠ 0) :
    bonusTerm month volume = .num (bonusOf month volume) := by
  unfold bonusTerm jsDiv
  rw [if_neg hv, mul_div_cancel_right₀ _ hv]

theorem insertByDate_perm (p : MilkProduction) (l : List MilkProduction) :
    List.Perm (insertByDate p l) (p :: l) := by
  induction l with
  | nil => simp [insertByDate]
  | cons q rest ih =>
    simp only [insertByDate]
    split
    · exact List.Perm.refl _
    · exact (ih.cons q).trans (List.Perm.swap p q rest)

theorem sortByDate_perm (l : List MilkProduction) : List.Perm (sortByDate l) l := by
  induction l with
  | nil => exact List.Perm.refl _
  | cons p rest ih => exact (insertByDate_perm p (sortByDate rest)).trans (ih.cons p)

theorem totalLitersOf_eq_sum (l : List ProdView) :
    totalLitersOf l = (l.map ProdView.volume_liters).sum := by
  have key : ∀ (l : List ProdView) (a : ℚ),
      List.foldl (fun total production => total + production.volume_liters) a l
        = a + (l.map ProdView.volume_liters).sum := by
    intro l
    induction l with
    | nil => intro a; simp
    | cons p rest ih =>
      intro a
      simp only [List.foldl, List.map, List.sum_cons, ih]
      ring
  simpa using key l 0

theorem totalLitersOf_window (m : List MilkProduction) :
    totalLitersOf ((sortByDate m).map projectProduction)
      = (m.map MilkProduction.volume_liters).sum := by
  rw [totalLitersOf_eq_sum, List.map_map]
  have hcomp : (ProdView.volume_liters ∘ projectProduction) = MilkProduction.volume_liters := rfl
  rw [hcomp]
  exact ((sortByDate_perm m).map MilkProduction.volume_liters).sum_eq

theorem daysBeforeYear_succ (y : ℤ) :
    daysBeforeYear (y + 1) = daysBeforeYear y + 365 + (if isLeapYear y then 1 else 0) := by
  unfold daysBeforeYear leapYearsBefore
  split
  · rename_i h
    unfold isLeapYear at h
    omega
  · rename_i h
    unfold isLeapYear at h
    omega

theorem promiseAll_error {α β : Type} (f : α → Except String β) (E : String)
    (hmsg : ∀ a e, f a = .error e → e = E)
    (l : List α) (a : α) (ha : a ∈ l) (e : String) (he : f a = .error e) :
    promiseAll f l = .error E := by
  induction l with
  | nil => cases ha
  | cons b rest ih =>
    rcases List.mem_cons.mp ha with rfl | hmem
    · simp only [promiseAll]
      rw [he, hmsg a e he]
    · simp only [promiseAll]
      cases hfb : f b with
      | error e2 => rw [hmsg b e2 hfb]
      | ok b2 => rw [ih hmem]

theorem promiseAll_ok {α β : Type} (f : α → Except String β)
    (l : List α) (hok : ∀ a ∈ l, ∃ b, f a = .ok b) :
    ∃ out, promiseAll f l = .ok out ∧ List.Forall₂ (fun a b => f a = .ok b) l out := by
  induction l with
  | nil => exact ⟨[], rfl, List.Forall₂.nil⟩
  | cons b rest ih =>
    obtain ⟨b2, hb2⟩ := hok b (List.mem_cons_self b rest)
    obtain ⟨out, hout, hf2⟩ := ih (fun a ha => hok a (List.mem_cons_of_mem b ha))
    refine ⟨b2 :: out, ?_, List.Forall₂.cons hb2 hf2⟩
    simp only [promiseAll]
    rw [hb2, hout]

theorem forall2_map_eq {α β : Type} (g : α → ℤ) (h : β → ℤ) (R : α → β → Prop)
    (hR : ∀ a b, R a b → h b = g a) :
    ∀ (l : List α) (out : List β), List.Forall₂ R l out → out.map h = l.map g := by
  intro l out hf
  induction hf with
  | nil => rfl
  | cons hab _ ih => simp only [List.map, ih, hR _ _ hab]

theorem convertPaymentEntry_error_msg (conv : Converter) (farm : Farm) (p : Payment)
    (e : String) (h : convertPaymentEntry conv farm p = .error e) :
    e = "Currency conversion failed" := by
  simp only [convertPaymentEntry] at h
  cases hc : conv p.month
      (calculatePricePerLiter farm.distance_to_factory_km p.total_volume_liters p.month) with
  | none =>
    rw [hc] at h
    injection h with h2
    exact h2.symm
  | some usd =>
    rw [hc] at h
    cases h

theorem convertPaymentEntry_error_of_none (conv : Converter) (farm : Farm) (p : Payment)
    (h : conv p.month
      (calculatePricePerLiter farm.distance_to_factory_km p.total_volume_liters p.month) = none) :
    convertPaymentEntry conv farm p = .error "Currency conversion failed" := by
  simp [convertPaymentEntry, h]

theorem convertPaymentEntry_ok (conv : Converter) (farm : Farm) (p : Payment)
    (h : conv p.month
      (calculatePricePerLiter farm.distance_to_factory_km p.total_volume_liters p.month) ≠ none) :
    ∃ b, convertPaymentEntry conv farm p = .ok b ∧ b.month = p.month := by
  cases hc : conv p.month
      (calculatePricePerLiter farm.distance_to_factory_km p.total_volume_liters p.month) with
  | none => exact absurd hc h
  | some usd =>
    exact ⟨{ month := p.month,
             priceBRL := calculatePricePerLiter farm.distance_to_factory_km
               p.total_volume_liters p.month,
             priceUSD := usd, total_payment := jsToFixed2 p.total_payment,
             total_volume_liters := toFixed2 p.total_volume_liters },
           by simp [convertPaymentEntry, hc], rfl⟩

/-! ## Claim theorems -/

/-- Claim C1, amended: for every valid triple with *strictly positive*
volume (distance ≥ 0, month in 1..12, volume > 0), the price calculator
returns exactly `basePrice - (costPerKm * distance) + bonus` with the
table values of `basePriceOf`, `costPerKmOf` and `bonusOf`.  (At volume 0
the claim fails: the bonus term divides 0 by 0, see the counterexample.) -/
theorem calculatePricePerLiter_closed_form (distance volume : ℚ) (month : ℤ)
    (hd : 0 ≤ distance) (hm1 : 1 ≤ month) (hm2 : month ≤ 12) (hv : 0 < volume) :
    calculatePricePerLiter distance volume month
      = .num (basePriceOf month - costPerKmOf distance * distance + bonusOf month volume) := by
  unfold calculatePricePerLiter
  rw [bonusTerm_eq_of_ne_zero month volume (ne_of_gt hv)]
  rfl

/-- Witness for C1 at scenario A of the spec: distance 30, month 3, volume
5000 give `1.80 - 0.05 * 30 + 0 = 0.30`. -/
theorem calculatePricePerLiter_closed_form_witness :
    calculatePricePerLiter 30 5000 3
      = .num (basePriceOf 3 - costPerKmOf 30 * 30 + bonusOf 3 5000)
    ∧ basePriceOf 3 - costPerKmOf 30 * 30 + bonusOf 3 5000 = 0.3 :=
  ⟨calculatePricePerLiter_closed_form 30 5000 3 (by norm_num) (by norm_num)
      (by norm_num) (by norm_num),
   by norm_num [basePriceOf, costPerKmOf, bonusOf, isFirstSemester]⟩

/-- Counterexample to C1 as stated: volume 0 is a valid input (finite and
non-negative), yet at distance 0, month 1, volume 0 the calculator returns
NaN, not `basePrice - costPerKm * 0 + bonus`. -/
theorem calculatePricePerLiter_zero_volume_cex :
    calculatePricePerLiter 0 0 1 = JSNum.nan ∧
    JSNum.nan ≠ .num (basePriceOf 1 - costPerKmOf 0 * 0 + bonusOf 1 0) := by
  constructor
  · norm_num [calculatePricePerLiter, bonusTerm, bonusOf, jsDiv, jsAddNum,
      isFirstSemester]
  · exact fun h => JSNum.noConfusion h

/-- Claim C2: for month in the valid range 1..12, the bonus term
`(bonus * volume) / volume` equals exactly `+0.01` iff month ∈ 7..12 and
volume > 10000 — independent of the volume's magnitude — and in the
eligible case the price is `basePrice - transportCost + 0.01`. -/
theorem bonus_rule (distance volume : ℚ) (month : ℤ)
    (hm1 : 1 ≤ month) (hm2 : month ≤ 12) :
    (bonusTerm month volume = .num 0.01 ↔ (7 ≤ month ∧ month ≤ 12 ∧ volume > 10000)) ∧
    ((7 ≤ month ∧ month ≤ 12 ∧ volume > 10000) →
      calculatePricePerLiter distance volume month
        = .num (basePriceOf month - costPerKmOf distance * distance + 0.01)) := by
  have hbonus : 7 ≤ month → volume > 10000 → bonusTerm month volume = .num 0.01 := by
    intro h7 hvol
    have hv : volume ≠ 0 := ne_of_gt (lt_trans (by norm_num) hvol)
    rw [bonusTerm_eq_of_ne_zero month volume hv]
    congr 1
    unfold bonusOf
    rw [if_pos]
    refine ⟨fun hfs => ?_, hvol⟩
    unfold isFirstSemester at hfs
    omega
  constructor
  · constructor
    · intro hbt
      by_cases hv : volume = 0
      · rw [hv] at hbt
        simp [bonusTerm, jsDiv] at hbt
      · rw [bonusTerm_eq_of_ne_zero month volume hv] at hbt
        injection hbt with hb
        by_cases hc : ¬ isFirstSemester month ∧ volume > 10000
        · refine ⟨?_, hm2, hc.2⟩
          have hfs := hc.1
          unfold isFirstSemester at hfs
          omega
        · rw [bonusOf, if_neg hc] at hb
          exact absurd hb.symm (by norm_num)
    · rintro ⟨h7, _, hvol⟩
      exact hbonus h7 hvol
  · rintro ⟨h7, _, hvol⟩
    unfold calculatePricePerLiter
    rw [hbonus h7 hvol]
    rfl

/-- Witness for C2 at month 9, volume 15000, distance 80: the bonus is
eligible and contributes exactly 0.01. -/
theorem bonus_rule_witness :
    (bonusTerm 9 15000 = .num 0.01 ↔ (7 ≤ (9 : ℤ) ∧ (9 : ℤ) ≤ 12 ∧ (15000 : ℚ) > 10000)) ∧
    ((7 ≤ (9 : ℤ) ∧ (9 : ℤ) ≤ 12 ∧ (15000 : ℚ) > 10000) →
      calculatePricePerLiter 80 15000 9
        = .num (basePriceOf 9 - costPerKmOf 80 * 80 + 0.01)) :=
  bonus_rule 80 15000 9 (by norm_num) (by norm_num)

/-- Counterexample to C3 as stated: at distance 80, month 9, volume 15000
the calculator returns −2.84 (`1.95 - 0.06 * 80 + 0.01`), not the −3.24 the
spec asserts for scenario B. -/
theorem scenarioB_cex :
    calculatePricePerLiter 80 15000 9 = .num (-2.84) ∧ ((-2.84 : ℚ) ≠ -3.24) := by
  constructor
  · norm_num [calculatePricePerLiter, bonusTerm, bonusOf, jsDiv, jsAddNum,
      basePriceOf, costPerKmOf, isFirstSemester]
  · norm_num

/-- Claim C3, amended: scenario B (distance 80, month 9, volume 15000)
yields −2.84 per liter; the negative value is returned as an ordinary
number — no floor is applied and no error is raised. -/
theorem scenarioB_price :
    calculatePricePerLiter 80 15000 9 = .num (-2.84) ∧ ((-2.84 : ℚ) < 0) := by
  constructor
  · norm_num [calculatePricePerLiter, bonusTerm, bonusOf, jsDiv, jsAddNum,
      basePriceOf, costPerKmOf, isFirstSemester]
  · norm_num

/-- Claim C8: for every year and month 1..12, the window computed by the
code — `Date.UTC(year, month-1, 1, 0, 0, 0)` through
`Date.UTC(year, month, 0, 23, 59, 59)` — runs from 00:00:00 UTC on day 1 of
the month to 23:59:59 UTC on its last calendar day, with the month length
given by Gregorian calendar arithmetic (leap February 29, February 28,
April 30, 31-day months 31). -/
theorem month_window_calendar (y m : ℤ) (h1 : 1 ≤ m) (h2 : m ≤ 12) :
    startOfMonth y m = civilTimestamp y m 1 0 0 0 ∧
    endOfMonth y m = civilTimestamp y m (daysInMonth y m) 23 59 59 := by
  interval_cases m <;>
    constructor <;>
    · norm_num [startOfMonth, endOfMonth, dateUTC, civilTimestamp, daysFromCivil,
        daysBeforeMonth, daysInMonth, daysBeforeYear_succ]
      all_goals try split_ifs
      all_goals omega

/-- Witness for C8 at the leap February 2024: the window runs through
day 29. -/
theorem month_window_calendar_witness :
    (startOfMonth 2024 2 = civilTimestamp 2024 2 1 0 0 0 ∧
     endOfMonth 2024 2 = civilTimestamp 2024 2 (daysInMonth 2024 2) 23 59 59) ∧
    daysInMonth 2024 2 = 29 :=
  ⟨month_window_calendar 2024 2 (by norm_num) (by norm_num), by decide⟩

/-- Claim C4: whenever the farm is absent or the repository window query
returns zero production records, `createPayment` fails with the
corresponding NotFound-style error and the store — in particular the
payments collection — is left unchanged. -/
theorem createPayment_notfound_no_persist (st : Store) (farm_id : RawId)
    (year month now : ℤ) (hid : farm_id.hexOk = true)
    (h : getFarmById st.farms farm_id.oid = none ∨ aggWindow st farm_id.oid year month = []) :
    ((createPayment st farm_id year month now).2 = .error "Farm not found" ∨
     (createPayment st farm_id year month now).2 =
       .error "No milk production data found for this period") ∧
    (createPayment st farm_id year month now).1 = st := by
  have hfmt : formatObjectId farm_id = .ok farm_id.oid := by simp [formatObjectId, hid]
  cases hf : getFarmById st.farms farm_id.oid with
  | none => simp [createPayment, hfmt, hf]
  | some farm =>
    rcases h with hnone | hempty
    · rw [hf] at hnone
      cases hnone
    · have hempty2 : getMilkProductionsByYearAndMonth st.milkProductions farm_id.oid
          (startOfMonth year month) (endOfMonth year month) = [] := hempty
      simp [createPayment, hfmt, hf, hempty2]

/-- Witness for C4: on a store with the farm but no production records,
`createPayment` fails with the no-production error and persists nothing. -/
theorem createPayment_notfound_no_persist_witness :
    ((createPayment storeNoProd demoId 2024 3 0).2 = .error "Farm not found" ∨
     (createPayment storeNoProd demoId 2024 3 0).2 =
       .error "No milk production data found for this period") ∧
    (createPayment storeNoProd demoId 2024 3 0).1 = storeNoProd :=
  createPayment_notfound_no_persist storeNoProd demoId 2024 3 0 rfl
    (Or.inr (by simp [aggWindow, getMilkProductionsByYearAndMonth, matchProductions,
      sortByDate, storeNoProd]))

/-- Claim C9: with a well-formed identifier, `getPricePerLiterByFarmAndMonth`
returns the `Farm not found` message object when the farm is absent, and the
`No payment data found for this period` message object when the farm exists
but no snapshot is stored for the triple — in both cases an ordinary `.ok`
result, not a thrown error. -/
theorem getPriceByFarmAndMonth_notfound (conv : Converter) (st : Store) (farmId : RawId)
    (year month : ℤ) (hid : farmId.hexOk = true) :
    (getFarmById st.farms farmId.oid = none →
      getPricePerLiterByFarmAndMonth conv st farmId year month =
        .ok (.msg "Farm not found")) ∧
    (∀ farm, getFarmById st.farms farmId.oid = some farm →
      findPaymentByFarmAndMonth st.payments farmId.oid year month = none →
      getPricePerLiterByFarmAndMonth conv st farmId year month =
        .ok (.msg "No payment data found for this period")) := by
  have hfmt : formatObjectId farmId = .ok farmId.oid := by simp [formatObjectId, hid]
  constructor
  · intro hf
    simp [getPricePerLiterByFarmAndMonth, hfmt, hf]
  · intro farm hf hp
    simp [getPricePerLiterByFarmAndMonth, hfmt, hf, hp]

/-- Witness for C9: a missing farm yields the `Farm not found` message
object. -/
theorem getPriceByFarmAndMonth_notfound_witness :
    getPricePerLiterByFarmAndMonth convOk storeNoProd demoId99 2024 1 =
      .ok (.msg "Farm not found") :=
  (getPriceByFarmAndMonth_notfound convOk storeNoProd demoId99 2024 1 rfl).1
    (by simp [getFarmById, storeNoProd, demoFarm, demoId99])

/-- Claim C10: when matching production records exist but their volumes sum
to exactly 0, the bonus term divides 0 by 0, so the snapshot is still
created (no error) with `price_per_liter` and `total_payment` both NaN. -/
theorem createPayment_zero_volume_nan (st : Store) (farm_id : RawId)
    (year month now : ℤ) (farm : Farm) (hid : farm_id.hexOk = true)
    (hf : getFarmById st.farms farm_id.oid = some farm)
    (hne : aggWindow st farm_id.oid year month ≠ [])
    (hzero : totalLitersOf (aggWindow st farm_id.oid year month) = 0) :
    ∃ payment,
      (createPayment st farm_id year month now).2 = .ok payment ∧
      payment.price_per_liter = JSNum.nan ∧
      payment.total_payment = JSNum.nan ∧
      (createPayment st farm_id year month now).1.payments = st.payments ++ [payment] := by
  have hfmt : formatObjectId farm_id = .ok farm_id.oid := by simp [formatObjectId, hid]
  have hne2 : getMilkProductionsByYearAndMonth st.milkProductions farm_id.oid
      (startOfMonth year month) (endOfMonth year month) ≠ [] := hne
  have hzero2 : totalLitersOf (getMilkProductionsByYearAndMonth st.milkProductions farm_id.oid
      (startOfMonth year month) (endOfMonth year month)) = 0 := hzero
  have hnan : calculatePricePerLiter farm.distance_to_factory_km 0 month = JSNum.nan := by
    simp [calculatePricePerLiter, bonusTerm, jsDiv, jsAddNum, mul_zero]
  refine ⟨{ farm_id := farm_id.oid, year := year, month := month,
            price_per_liter := JSNum.nan, total_volume_liters := 0,
            total_payment := JSNum.nan, createdAt := now, updatedAt := now },
          ?_, rfl, rfl, ?_⟩
  · simp [createPayment, hfmt, hf, if_neg hne2, hzero2, hnan, jsMulNum]
  · simp [createPayment, hfmt, hf, if_neg hne2, hzero2, hnan, jsMulNum]

/-- Witness for C10: a July 2024 record of volume 0 yields a persisted
snapshot with NaN price and NaN total payment. -/
theorem createPayment_zero_volume_nan_witness :
    ∃ payment,
      (createPayment storeZero demoId2 2024 7 0).2 = .ok payment ∧
      payment.price_per_liter = JSNum.nan ∧
      payment.total_payment = JSNum.nan ∧
      (createPayment storeZero demoId2 2024 7 0).1.payments =
        storeZero.payments ++ [payment] :=
  createPayment_zero_volume_nan storeZero demoId2 2024 7 0 demoFarmNear rfl
    (by simp [getFarmById, storeZero, demoFarmNear, demoId2])
    (by decide)
    (by
      have hw : aggWindow storeZero demoId2.oid 2024 7 = [projectProduction prodZero] := by
        decide
      rw [hw]
      simp [totalLitersOf, projectProduction, prodZero])

theorem convertPaymentEntry_month (conv : Converter) (farm : Farm) (p : Payment)
    (b : YearEntry) (h : convertPaymentEntry conv farm p = .ok b) : b.month = p.month := by
  simp only [convertPaymentEntry] at h
  cases hc : conv p.month
      (calculatePricePerLiter farm.distance_to_factory_km p.total_volume_liters p.month) with
  | none =>
    rw [hc] at h
    cases h
  | some usd =>
    rw [hc] at h
    injection h with h2
    rw [← h2]

/-- Claim C5: once the farm is loaded and at least one snapshot is stored
for the year, the year endpoint is all-or-nothing over the independent
per-month conversions: if any month's conversion fails the whole call
rejects with `Currency conversion failed` and no partial list is returned;
if all succeed, the result has one entry per stored month, in order. -/
theorem getPriceByFarmAndYear_all_or_nothing (conv : Converter) (st : Store)
    (farmId : RawId) (year : ℤ) (farm : Farm) (hid : farmId.hexOk = true)
    (hf : getFarmById st.farms farmId.oid = some farm)
    (hne : getPaymentsByFarmAndYear st.payments farmId.oid year ≠ []) :
    ((∃ p ∈ getPaymentsByFarmAndYear st.payments farmId.oid year,
        conv p.month (calculatePricePerLiter farm.distance_to_factory_km
          p.total_volume_liters p.month) = none) →
      getPricePerLiterByFarmAndYear conv st farmId year =
        .error "Currency conversion failed") ∧
    ((∀ p ∈ getPaymentsByFarmAndYear st.payments farmId.oid year,
        conv p.month (calculatePricePerLiter farm.distance_to_factory_km
          p.total_volume_liters p.month) ≠ none) →
      ∃ entries, getPricePerLiterByFarmAndYear conv st farmId year =
          .ok (.prices entries) ∧
        entries.map YearEntry.month =
          (getPaymentsByFarmAndYear st.payments farmId.oid year).map Payment.month) := by
  have hfmt : formatObjectId farmId = .ok farmId.oid := by simp [formatObjectId, hid]
  have hmain : getPricePerLiterByFarmAndYear conv st farmId year =
      (promiseAll (convertPaymentEntry conv farm)
        (getPaymentsByFarmAndYear st.payments farmId.oid year)).map .prices := by
    simp [getPricePerLiterByFarmAndYear, hfmt, hf, if_neg hne]
  constructor
  · rintro ⟨p, hp, hcp⟩
    rw [hmain,
      promiseAll_error (convertPaymentEntry conv farm) "Currency conversion failed"
        (fun a e he => convertPaymentEntry_error_msg conv farm a e he) _ p hp
        "Currency conversion failed" (convertPaymentEntry_error_of_none conv farm p hcp)]
    rfl
  · intro hall
    obtain ⟨out, hout, hf2⟩ := promiseAll_ok (convertPaymentEntry conv farm) _
      (fun a ha => (convertPaymentEntry_ok conv farm a (hall a ha)).imp
        (fun b hb => hb.1))
    refine ⟨out, ?_, ?_⟩
    · rw [hmain, hout]
      rfl
    · exact forall2_map_eq Payment.month YearEntry.month
        (fun a b => convertPaymentEntry conv farm a = .ok b)
        (fun a b hab => convertPaymentEntry_month conv farm a b hab) _ _ hf2

/-- Witness for C5 at scenario D: the stored month is 5 and the month-5
conversion fails, so the whole call rejects. -/
theorem getPriceByFarmAndYear_all_or_nothing_witness :
    getPricePerLiterByFarmAndYear convFailMay storeYear demoId 2024 =
      .error "Currency conversion failed" :=
  (getPriceByFarmAndYear_all_or_nothing convFailMay storeYear demoId 2024 demoFarm rfl
    (by simp [getFarmById, storeYear, demoFarm, demoId])
    (by decide)).1
    ⟨paymentMay, by decide, by simp [convFailMay, paymentMay]⟩

/-- Claim C6, amended: with at least one matching record the aggregator
computes the total volume as the sum of `volume_liters` over the matching
records and uses it only to derive `averageLiters`; the returned object
carries the `dailyProductions` and `averageLiters` fields and no
`totalVolumeLiters` field. -/
theorem milkAgg_fields (st : Store) (farmId : RawId) (year month : ℤ)
    (hid : farmId.hexOk = true)
    (hne : aggWindow st farmId.oid year month ≠ []) :
    getMilkProductionByYearAndMonth st farmId year month =
      .ok (aggResultObject (aggWindow st farmId.oid year month)) ∧
    totalLitersOf (aggWindow st farmId.oid year month) =
      ((matchProductions farmId.oid (startOfMonth year month) (endOfMonth year month)
        st.milkProductions).map MilkProduction.volume_liters).sum ∧
    (∀ v : AggVal,
      ("totalVolumeLiters", v) ∉ aggResultObject (aggWindow st farmId.oid year month)) := by
  have hfmt : formatObjectId farmId = .ok farmId.oid := by simp [formatObjectId, hid]
  have hne2 : getMilkProductionsByYearAndMonth st.milkProductions farmId.oid
      (startOfMonth year month) (endOfMonth year month) ≠ [] := hne
  refine ⟨?_, ?_, ?_⟩
  · simp [getMilkProductionByYearAndMonth, hfmt, if_neg hne2]
    rfl
  · exact totalLitersOf_window _
  · intro v hv
    simp [aggResultObject] at hv
  
/-- Witness for C6 (amended form) on a store with one matching March 2024
record. -/
theorem milkAgg_fields_witness :
    getMilkProductionByYearAndMonth storeMarch demoId 2024 3 =
      .ok (aggResultObject (aggWindow storeMarch demoId.oid 2024 3)) ∧
    totalLitersOf (aggWindow storeMarch demoId.oid 2024 3) =
      ((matchProductions demoId.oid (startOfMonth 2024 3) (endOfMonth 2024 3)
        storeMarch.milkProductions).map MilkProduction.volume_liters).sum ∧
    (∀ v : AggVal,
      ("totalVolumeLiters", v) ∉ aggResultObject (aggWindow storeMarch demoId.oid 2024 3)) :=
  milkAgg_fields storeMarch demoId 2024 3 rfl (by decide)

/-- Counterexample to C6 as stated: the store holds one matching record
(so the window is nonempty), yet the returned object has no
`totalVolumeLiters` field at all. -/
theorem milkAgg_no_total_cex :
    aggWindow storeMarch 1 2024 3 ≠ [] ∧
    (getMilkProductionByYearAndMonth storeMarch demoId 2024 3).map
      (fun obj => List.lookup "totalVolumeLiters" obj) = .ok none := by
  constructor
  · decide
  · rfl

/-- Claim C7: zero matching records produce the `message` sentinel object,
and any aggregate built from records is a different value — it has no
`message` field — so callers can distinguish the two cases (in particular a
zero-total aggregate is not the sentinel). -/
theorem milkAgg_sentinel (st : Store) (farmId : RawId) (year month : ℤ)
    (hid : farmId.hexOk = true) :
    (aggWindow st farmId.oid year month = [] →
      getMilkProductionByYearAndMonth st farmId year month = .ok noDataSentinel) ∧
    (aggWindow st farmId.oid year month ≠ [] →
      getMilkProductionByYearAndMonth st farmId year month =
        .ok (aggResultObject (aggWindow st farmId.oid year month)) ∧
      aggResultObject (aggWindow st farmId.oid year month) ≠ noDataSentinel ∧
      (∀ v : AggVal,
        ("message", v) ∉ aggResultObject (aggWindow st farmId.oid year month))) := by
  have hfmt : formatObjectId farmId = .ok farmId.oid := by simp [formatObjectId, hid]
  constructor
  · intro hempty
    have hempty2 : getMilkProductionsByYearAndMonth st.milkProductions farmId.oid
        (startOfMonth year month) (endOfMonth year month) = [] := hempty
    simp [getMilkProductionByYearAndMonth, hfmt, hempty2]
  · intro hne
    have hne2 : getMilkProductionsByYearAndMonth st.milkProductions farmId.oid
        (startOfMonth year month) (endOfMonth year month) ≠ [] := hne
    refine ⟨?_, ?_, ?_⟩
    · simp [getMilkProductionByYearAndMonth, hfmt, if_neg hne2]
      rfl
    · simp [aggResultObject, noDataSentinel]
    · intro v hv
      simp [aggResultObject] at hv

/-- Witness for C7: the empty store yields the sentinel object. -/
theorem milkAgg_sentinel_witness :
    getMilkProductionByYearAndMonth storeNoProd demoId 2024 3 = .ok noDataSentinel :=
  (milkAgg_sentinel storeNoProd demoId 2024 3 rfl).1
    (by simp [aggWindow, getMilkProductionsByYearAndMonth, matchProductions,
      sortByDate, storeNoProd])
